import Mathlib

/-!
Verification of `xblock/scorable.py` (ScorableXBlockMixin).

The Python module defines `Score = namedtuple('Score', ['earned', 'total'])`
and a mixin with `rescore`, `_publish_grade`, `_publish_scoring_event`,
`_base_event_info`, `allows_rescore`, and default `get_score` / `set_score` /
`calculate_score`.  We embed the mixin shallowly: float score fields become
rationals, Python dicts become insertion-ordered association lists with
`dict.update` semantics, the runtime's `publish` calls become an ordered list
of published records, and exceptions become an explicit result type.
-/

namespace Scorable

/-- `Score = namedtuple('Score', ['earned', 'total'])`.  Python floats are
modelled as rationals (the values used by the code and its tests are exact
decimals, and tuple comparison on non-NaN floats agrees with the rational
order). -/
structure Score where
  earned : ℚ
  total : ℚ
deriving DecidableEq, Repr

/-- Python's namedtuple comparison `new_score > original_score`: tuples
compare lexicographically, first component first. -/
def scoreGt (a b : Score) : Bool :=
  a.earned > b.earned || (a.earned == b.earned && a.total > b.total)

/-- Values stored in event payload dictionaries: strings, numbers, booleans
and nested dicts (for `Score._asdict()`). -/
inductive Val where
  | str : String → Val
  | num : ℚ → Val
  | bool : Bool → Val
  | dict : List (String × Val) → Val

/-- A Python dict, modelled as an insertion-ordered association list.  A
well-formed dict has no duplicate keys. -/
abbrev Dict := List (String × Val)

/-- `d[k] = v` for a single key: replace the value in place if the key is
present (at its first occurrence — the only one in a well-formed dict),
otherwise append the new pair at the end (Python dict assignment preserves
insertion order). -/
def setKey (d : Dict) (k : String) (v : Val) : Dict :=
  match d with
  | [] => [(k, v)]
  | p :: t => if p.1 = k then (k, v) :: t else p :: setKey t k v

/-- `d.update(e)`: assign every pair of `e` into `d`, in order. -/
def dictUpdate (d e : Dict) : Dict :=
  e.foldl (fun acc p => setKey acc p.1 p.2) d

/-- Dict lookup (first occurrence; the unique one on a well-formed dict). -/
def dictGet (d : Dict) (k : String) : Option Val :=
  (d.find? (fun p => p.1 == k)).map (·.2)

/-- `Score._asdict()`: ordered field map of a score. -/
def Score.asdict (s : Score) : Dict :=
  [("earned", Val.num s.earned), ("total", Val.num s.total)]

/-- `_base_event_info(self)`: `{'usage_key': six.text_type(self.location)}`. -/
def baseEventInfo (location : String) : Dict :=
  [("usage_key", Val.str location)]

/-- The payload published by `_publish_scoring_event(name, data)`:
`logged = {}; logged.update(data); logged.update(self._base_event_info())`. -/
def scoringEventPayload (data : Dict) (location : String) : Dict :=
  dictUpdate (dictUpdate [] data) (baseEventInfo location)

/-- The grade dict built by `_publish_grade(only_if_higher)`, where `score`
is the result of the `self.get_score()` call it performs. -/
def gradeDict (score : Score) (onlyIfHigher : Option Bool) : Dict :=
  let d : Dict := [("value", Val.num score.earned), ("max_value", Val.num score.total)]
  match onlyIfHigher with
  | none => d
  | some b => setKey d "only_if_higher" (Val.bool b)

/-- A record sent to `self.runtime.publish`: either the `'grade'` record from
`_publish_grade` or a scoring audit event from `_publish_scoring_event`. -/
inductive Published where
  | grade : Dict → Published
  | event : String → Dict → Published

/-- Python exceptions that appear in the module. -/
inductive PyError where
  | typeError
  | valueError
  | notImplementedError
  | otherError : String → PyError
deriving DecidableEq, Repr

/-- Result of a Python call: a raised exception or a returned value. -/
inductive PyResult (α : Type) where
  | raised : PyError → PyResult α
  | ok : α → PyResult α
deriving DecidableEq, Repr

/-- `except Exception` in `rescore` fires exactly when `calculate_score`
raised. -/
def calcErrorHandlerFires {α : Type} : PyResult α → Bool
  | .raised _ => true
  | .ok _ => false

/-- Everything `rescore` depends on about the concrete unit: the value of
`allows_rescore()`, the persisted score read by `get_score()` (`none` models
Python `None`), the outcome of `calculate_score()`, and `self.location`. -/
structure Unit_ where
  allowsRescore : Bool
  persisted : Option Score
  calcResult : PyResult Score
  location : String
deriving DecidableEq, Repr

/-- Observable outcome of one `rescore` call: the returned value or raised
exception, the persisted score after the call (with `set_score` modelled as
persisting its argument, per its contract), the arguments of the `set_score`
calls made, whether `calculate_score` was invoked, and the ordered list of
records published to the runtime. -/
structure Outcome where
  result : PyResult Bool
  finalPersisted : Option Score
  setScoreCalls : List Score
  calcCalled : Bool
  published : List Published

/-- `rescore(self, only_if_higher)`, line by line.  `set_score(new_score)`
makes `get_score()` return `new_score`, so the `_publish_grade` call that
follows it reads `new_score` back. -/
def rescore (u : Unit_) (onlyIfHigher : Bool) : Outcome :=
  if !u.allowsRescore then
    { result := .raised .typeError
      finalPersisted := u.persisted
      setScoreCalls := []
      calcCalled := false
      published := [.event "rescore_failure"
        (scoringEventPayload [("failure", Val.str "unsupported")] u.location)] }
  else
    match u.persisted with
    | none =>
      { result := .raised .valueError
        finalPersisted := none
        setScoreCalls := []
        calcCalled := false
        published := [.event "rescore_failure"
          (scoringEventPayload [("failure", Val.str "unanswered")] u.location)] }
    | some originalScore =>
      match u.calcResult with
      | .raised _ =>
        { result := .ok false
          finalPersisted := some originalScore
          setScoreCalls := []
          calcCalled := true
          published := [.event "rescore_failure"
            (scoringEventPayload [("failure", Val.str "calculation error")] u.location)] }
      | .ok newScore =>
        if !onlyIfHigher || scoreGt newScore originalScore then
          { result := .ok true
            finalPersisted := some newScore
            setScoreCalls := [newScore]
            calcCalled := true
            published :=
              [ .grade (gradeDict newScore (some onlyIfHigher))
              , .event "rescore_result"
                  (scoringEventPayload
                    [ ("result", Val.str "score updated")
                    , ("original_score", Val.dict originalScore.asdict)
                    , ("new_score", Val.dict newScore.asdict) ] u.location) ] }
        else
          { result := .ok false
            finalPersisted := some originalScore
            setScoreCalls := []
            calcCalled := true
            published :=
              [ .event "rescore_result"
                  (scoringEventPayload
                    [ ("result", Val.str "score not changed")
                    , ("original_score", Val.dict originalScore.asdict)
                    , ("new_score", Val.dict newScore.asdict) ] u.location) ] }

/-- Default `get_score` on the mixin: `raise NotImplementedError`. -/
def default_get_score : PyResult Score := .raised .notImplementedError

/-- Default `set_score` on the mixin: `raise NotImplementedError`. -/
def default_set_score (_score : Score) : PyResult Unit := .raised .notImplementedError

/-- Default `calculate_score` on the mixin: its body is only a docstring, so
the call returns Python `None` without raising. -/
def default_calculate_score : PyResult (Option Score) := .ok none

/-- Heap-level model of `_publish_scoring_event`'s body for the mutation
claim: two references, `0` for the caller's `data` dict and `1` for the local
`logged` dict; each `update` writes only to the reference it is called on.
Returns the published payload together with the final value of `data`. -/
def publishScoringEventHeap (data : Dict) (location : String) : Dict × Dict :=
  let heap0 : List Dict := [data]
  let heap1 : List Dict := heap0 ++ [[]]
  let heap2 : List Dict := heap1.set 1 (dictUpdate (heap1.getD 1 []) (heap1.getD 0 []))
  let heap3 : List Dict := heap2.set 1 (dictUpdate (heap2.getD 1 []) (baseEventInfo location))
  (heap3.getD 1 [], heap3.getD 0 [])

/-- Keys of a dict. -/
def dictKeys (d : Dict) : List String := d.map (·.1)

/-- Predicate: the published list consists of exactly one audit event. -/
def isEvent : Published → Bool
  | .event _ _ => true
  | .grade _ => false

/-- Predicate: a published record is a grade record. -/
def isGrade : Published → Bool
  | .grade _ => true
  | .event _ _ => false

/-- Recognizes the audit event published by `rescore`'s `except Exception`
handler: a `'rescore_failure'` event whose payload is tagged
`'calculation error'`. -/
def isCalcErrorFailureEvent : Published → Bool
  | .event n d =>
      n == "rescore_failure" &&
        (match dictGet d "failure" with
         | some (Val.str s) => s == "calculation error"
         | _ => false)
  | .grade _ => false

/-! ## Helper lemmas about the dict model -/

lemma dictGet_setKey_self (d : Dict) (k : String) (v : Val) :
    dictGet (setKey d k v) k = some v := by
  induction d with
  | nil => simp [setKey, dictGet]
  | cons p t ih =>
    by_cases hp : p.1 = k
    · simp [setKey, hp, dictGet]
    · simp only [setKey, hp, if_false]
      simpa [dictGet, show (p.1 == k) = false by simpa using hp] using ih

lemma dictGet_setKey_other (d : Dict) (k : String) (v : Val) (k' : String)
    (h : k' ≠ k) :
    dictGet (setKey d k v) k' = dictGet d k' := by
  have hk : (k == k') = false := beq_eq_false_iff_ne.mpr (Ne.symm h)
  induction d with
  | nil => simp [setKey, dictGet, hk]
  | cons p t ih =>
    by_cases hp : p.1 = k
    · have hpk : (p.1 == k') = false := beq_eq_false_iff_ne.mpr (hp ▸ Ne.symm h)
      simp [setKey, hp, dictGet, hk, hpk]
    · by_cases hq : p.1 = k'
      · have hq' : (p.1 == k') = true := by simpa using hq
        simp [setKey, hp, dictGet, hq']
      · have hq' : (p.1 == k') = false := beq_eq_false_iff_ne.mpr hq
        simp only [setKey, if_neg hp]
        simpa [dictGet, hq'] using ih

lemma scoringEventPayload_eq_setKey (data : Dict) (location : String) :
    scoringEventPayload data location =
      setKey (dictUpdate [] data) "usage_key" (Val.str location) := rfl

/-- Boolean lexicographic comparison agrees with its propositional reading. -/
lemma scoreGt_iff (a b : Score) :
    scoreGt a b = true ↔
      b.earned < a.earned ∨ (a.earned = b.earned ∧ b.total < a.total) := by
  simp [scoreGt]

/-! ## Claim theorems -/

/-- C1: for a unit that allows rescoring, has a persisted score, and whose
`calculate_score` succeeds, `rescore(only_if_higher=True)` calls
`set_score(new_score)` and returns `True` iff `new_score > original_score`
under lexicographic comparison of `(earned, total)`; otherwise it calls
`set_score` on nothing, leaves the persisted score untouched, and returns
`False`. -/
theorem c1_only_if_higher_persists_iff_lex_greater (orig new : Score) (loc : String) :
    (rescore ⟨true, some orig, .ok new, loc⟩ true).result = .ok (scoreGt new orig)
    ∧ (rescore ⟨true, some orig, .ok new, loc⟩ true).setScoreCalls
        = (if scoreGt new orig then [new] else [])
    ∧ (rescore ⟨true, some orig, .ok new, loc⟩ true).finalPersisted
        = some (if scoreGt new orig then new else orig)
    ∧ (scoreGt new orig = true ↔
        orig.earned < new.earned ∨ (new.earned = orig.earned ∧ orig.total < new.total)) := by
  refine ⟨?_, ?_, ?_, scoreGt_iff new orig⟩ <;>
    cases h : scoreGt new orig <;> simp [rescore, h]

/-- C8: for a unit that allows rescoring, has a persisted score, and whose
`calculate_score` succeeds, `rescore(only_if_higher=False)` calls `set_score`
with the newly calculated score and returns `True`, regardless of how the new
score compares to the original. -/
theorem c8_not_only_if_higher_always_persists (orig new : Score) (loc : String) :
    (rescore ⟨true, some orig, .ok new, loc⟩ false).result = .ok true
    ∧ (rescore ⟨true, some orig, .ok new, loc⟩ false).setScoreCalls = [new]
    ∧ (rescore ⟨true, some orig, .ok new, loc⟩ false).finalPersisted = some new := by
  refine ⟨?_, ?_, ?_⟩ <;> simp [rescore]

/-- C3: if `calculate_score` raises, `rescore` returns `False`, does not call
`set_score`, leaves the persisted score unchanged, publishes exactly one
scoring-failure audit event tagged `'calculation error'`, and does not
propagate the error (the result is a normal return, not a raise). -/
theorem c3_calc_error_swallowed (orig : Score) (loc : String) (oih : Bool) (err : PyError) :
    (rescore ⟨true, some orig, .raised err, loc⟩ oih).result = .ok false
    ∧ (rescore ⟨true, some orig, .raised err, loc⟩ oih).setScoreCalls = []
    ∧ (rescore ⟨true, some orig, .raised err, loc⟩ oih).finalPersisted = some orig
    ∧ (rescore ⟨true, some orig, .raised err, loc⟩ oih).published
        = [Published.event "rescore_failure"
            [("failure", Val.str "calculation error"), ("usage_key", Val.str loc)]] := by
  refine ⟨?_, ?_, ?_, ?_⟩ <;>
    simp [rescore, scoringEventPayload, dictUpdate, setKey, baseEventInfo]

/-- C4: for a unit whose `allows_rescore()` is `False`, `rescore` (for either
`only_if_higher`) publishes a scoring-failure audit event tagged
`'unsupported'` and raises `TypeError`, without calling `calculate_score` or
`set_score`. -/
theorem c4_unsupported_raises_type_error
    (p : Option Score) (c : PyResult Score) (loc : String) (oih : Bool) :
    (rescore ⟨false, p, c, loc⟩ oih).result = .raised .typeError
    ∧ (rescore ⟨false, p, c, loc⟩ oih).calcCalled = false
    ∧ (rescore ⟨false, p, c, loc⟩ oih).setScoreCalls = []
    ∧ (rescore ⟨false, p, c, loc⟩ oih).finalPersisted = p
    ∧ (rescore ⟨false, p, c, loc⟩ oih).published
        = [Published.event "rescore_failure"
            [("failure", Val.str "unsupported"), ("usage_key", Val.str loc)]] := by
  refine ⟨?_, ?_, ?_, ?_, ?_⟩ <;>
    simp [rescore, scoringEventPayload, dictUpdate, setKey, baseEventInfo]

/-- C5: for a unit that allows rescoring but whose `get_score()` returns the
absent sentinel (`None`), `rescore` (for either `only_if_higher`) publishes a
scoring-failure audit event tagged `'unanswered'` and raises `ValueError`,
without calling `calculate_score` or `set_score`. -/
theorem c5_unanswered_raises_value_error
    (c : PyResult Score) (loc : String) (oih : Bool) :
    (rescore ⟨true, none, c, loc⟩ oih).result = .raised .valueError
    ∧ (rescore ⟨true, none, c, loc⟩ oih).calcCalled = false
    ∧ (rescore ⟨true, none, c, loc⟩ oih).setScoreCalls = []
    ∧ (rescore ⟨true, none, c, loc⟩ oih).published
        = [Published.event "rescore_failure"
            [("failure", Val.str "unanswered"), ("usage_key", Val.str loc)]] := by
  refine ⟨?_, ?_, ?_, ?_⟩ <;>
    simp [rescore, scoringEventPayload, dictUpdate, setKey, baseEventInfo]

/-- C6: on every rescore call that persists, the grade record published has
`value = new_score.earned`, `max_value = new_score.total`, and carries the
`only_if_higher` flag the caller passed; it is followed by the
`'score updated'` audit event. -/
theorem c6_grade_record_matches_new_score (orig new : Score) (loc : String) (oih : Bool)
    (h : oih = false ∨ scoreGt new orig = true) :
    (rescore ⟨true, some orig, .ok new, loc⟩ oih).published
      = [ Published.grade
            [("value", Val.num new.earned), ("max_value", Val.num new.total),
             ("only_if_higher", Val.bool oih)]
        , Published.event "rescore_result"
            (scoringEventPayload
              [("result", Val.str "score updated"),
               ("original_score", Val.dict orig.asdict),
               ("new_score", Val.dict new.asdict)] loc) ] := by
  rcases h with h | h
  · subst h; simp [rescore, gradeDict, setKey]
  · cases oih <;> simp [rescore, h, gradeDict, setKey]

theorem c6_grade_record_matches_new_score_witness :
    (rescore ⟨true, some ⟨0, 1⟩, .ok ⟨1, 1⟩, "unit-1"⟩ true).published
      = [ Published.grade
            [("value", Val.num 1), ("max_value", Val.num 1),
             ("only_if_higher", Val.bool true)]
        , Published.event "rescore_result"
            (scoringEventPayload
              [("result", Val.str "score updated"),
               ("original_score", Val.dict (Score.asdict ⟨0, 1⟩)),
               ("new_score", Val.dict (Score.asdict ⟨1, 1⟩))] "unit-1") ] :=
  c6_grade_record_matches_new_score ⟨0, 1⟩ ⟨1, 1⟩ "unit-1" true (Or.inr (by decide))

/-- C7: every rescore call publishes exactly one audit event on every
terminal path, and exactly on the paths that call `set_score` one grade
record is additionally published, before that path's audit event (the
published list is `[grade, event]` on persisting paths and `[event]`
otherwise). -/
theorem c7_one_audit_event_grade_before_it (u : Unit_) (oih : Bool) :
    (rescore u oih).published.map isGrade
        = (if (rescore u oih).setScoreCalls.isEmpty then [false] else [true, false])
    ∧ (rescore u oih).published.countP isEvent = 1 := by
  rcases u with ⟨a, p, c, loc⟩
  cases a
  · simp [rescore, isGrade, isEvent]
  · cases p with
    | none => simp [rescore, isGrade, isEvent]
    | some orig =>
      cases c with
      | raised e => simp [rescore, isGrade, isEvent]
      | ok new =>
        by_cases h : (!oih || scoreGt new orig) = true
        · simp [rescore, h, isGrade, isEvent]
        · simp [rescore, h, isGrade, isEvent]

/-- C9: `_publish_scoring_event` never mutates the caller-supplied payload:
in the heap model of its body (`logged = {}`, `logged.update(data)`,
`logged.update(base)`), the `data` reference holds the same dict after the
call, and the published payload is the merged copy. -/
theorem c9_publish_event_does_not_mutate_data (data : Dict) (loc : String) :
    (publishScoringEventHeap data loc).2 = data
    ∧ (publishScoringEventHeap data loc).1 = scoringEventPayload data loc := by
  exact ⟨rfl, rfl⟩

/-- C2 counterexample: a `usage_key` field supplied by the caller IS
overwritten by the base context in the published event, contradicting the
claim that caller-supplied fields take precedence. -/
theorem c2_counterexample :
    dictGet (scoringEventPayload [("usage_key", Val.str "caller-value")] "unit-loc")
        "usage_key"
      = some (Val.str "unit-loc")
    ∧ Val.str "unit-loc" ≠ Val.str "caller-value" := by
  refine ⟨rfl, fun h => ?_⟩
  injection h with h'
  exact absurd h' (by decide)

/-- C2 amended: the base context is merged LAST, so it takes precedence: the
published payload always maps `usage_key` to the unit's location, overwriting
any caller-supplied `usage_key`; every other caller-supplied key keeps the
caller's value. -/
theorem c2_amended_base_context_overwrites (data : Dict) (loc : String) :
    dictGet (scoringEventPayload data loc) "usage_key" = some (Val.str loc)
    ∧ ∀ k, k ≠ "usage_key" →
        dictGet (scoringEventPayload data loc) k = dictGet (dictUpdate [] data) k := by
  constructor
  · rw [scoringEventPayload_eq_setKey]
    exact dictGet_setKey_self _ _ _
  · intro k hk
    rw [scoringEventPayload_eq_setKey]
    exact dictGet_setKey_other _ _ _ _ hk

theorem c2_amended_base_context_overwrites_witness :
    dictGet (scoringEventPayload [("failure", Val.str "unsupported")] "unit-1") "usage_key"
      = some (Val.str "unit-1")
    ∧ dictGet (scoringEventPayload [("failure", Val.str "unsupported")] "unit-1") "failure"
      = dictGet (dictUpdate [] [("failure", Val.str "unsupported")]) "failure" :=
  ⟨(c2_amended_base_context_overwrites [("failure", Val.str "unsupported")] "unit-1").1,
   (c2_amended_base_context_overwrites [("failure", Val.str "unsupported")] "unit-1").2
     "failure" (by decide)⟩

/-- C10: the default `get_score` and `set_score` raise `NotImplementedError`,
but the default `calculate_score` returns `None` without raising, so it does
not trigger `rescore`'s calculation-error handler — which publishes its
`'calculation error'` failure event exactly when `calculate_score` raises. -/
theorem c10_default_calculate_score_does_not_raise :
    default_get_score = .raised .notImplementedError
    ∧ (∀ s : Score, default_set_score s = .raised .notImplementedError)
    ∧ default_calculate_score = .ok none
    ∧ calcErrorHandlerFires default_calculate_score = false
    ∧ ∀ (orig : Score) (loc : String) (oih : Bool) (c : PyResult Score),
        (rescore ⟨true, some orig, c, loc⟩ oih).published.countP isCalcErrorFailureEvent
          = (if calcErrorHandlerFires c then 1 else 0) := by
  refine ⟨rfl, fun _ => rfl, rfl, rfl, ?_⟩
  intro orig loc oih c
  cases c with
  | raised e =>
    simp [rescore, calcErrorHandlerFires, isCalcErrorFailureEvent,
      scoringEventPayload, dictUpdate, setKey, baseEventInfo, dictGet]
  | ok new =>
    by_cases h : (!oih || scoreGt new orig) = true
    · simp [rescore, h, calcErrorHandlerFires, isCalcErrorFailureEvent]
    · simp [rescore, h, calcErrorHandlerFires, isCalcErrorFailureEvent]

end Scorable
